import Mathlib

/-!
Shallow embedding of the automap viewport controller of `src/doom/rs/am_map.h`
(the `Automap` handle and the `automap_*` operations). The repository ships
only the C header with the declarations; the implementation behind it is not
part of the sources given, so every operation below is modelled from the
specification document, faithful to its words. Map coordinates are fixed-point
values carried in machine integers; we model them as unbounded `Int`, since the
specified behaviour is plain integer arithmetic (translation, midpoints,
`window * scale` products).
-/

namespace AmMap

/-- Modelled from the spec: a map-space point `(x, y)` in fixed-point units.
The Rust implementation behind `am_map.h` is not in the sources. -/
@[ext]
structure Point where
  x : Int
  y : Int
deriving DecidableEq, Repr

/-- Modelled from the spec: the axis-aligned map-space rectangle
`{min_x, min_y, max_x, max_y}` that the automap displays. -/
@[ext]
structure Rect where
  min_x : Int
  min_y : Int
  max_x : Int
  max_y : Int
deriving DecidableEq, Repr

/-- Modelled from the spec: the frame-buffer window extent in pixels. -/
structure WindowSize where
  width : Int
  height : Int
deriving DecidableEq, Repr

/-- Modelled from the spec: the error taxonomy of the controller.
`invalidGeometry` reports a non-positive window size or scale;
`invalidRectangle` reports a malformed min/max ordering. -/
inductive AutomapError where
  | invalidGeometry
  | invalidRectangle
deriving DecidableEq, Repr

/-- Modelled from the spec: the `Automap` viewport state behind the opaque
`struct Automap *` handle of `am_map.h`: logical focus `center`, the displayed
`visible_rect`, the rotation flag, the pixel `window_size`, the fixed-point
scale factor, the pending pan offset, and the one-level save slot holding a
snapshot of the rectangle and the center. -/
structure Automap where
  center : Point
  visible_rect : Rect
  rotate : Bool
  window_size : WindowSize
  scale_frame_buffer_to_map : Int
  pan_accumulator : Point
  saved_rect : Option (Rect × Point)
deriving DecidableEq, Repr

/-- Width of a rectangle, `max_x - min_x`. -/
def Rect.width (r : Rect) : Int := r.max_x - r.min_x

/-- Height of a rectangle, `max_y - min_y`. -/
def Rect.height (r : Rect) : Int := r.max_y - r.min_y

/-- Midpoint of a rectangle (fixed-point floor division by two). -/
def Rect.mid (r : Rect) : Point :=
  ⟨(r.min_x + r.max_x) / 2, (r.min_y + r.max_y) / 2⟩

/-- Translation of a rectangle by an offset applied to both corners. -/
def Rect.translate (r : Rect) (dx dy : Int) : Rect :=
  ⟨r.min_x + dx, r.min_y + dy, r.max_x + dx, r.max_y + dy⟩

/-- Modelled from the spec: the rectangle of width `w * s` and height `h * s`
placed around a center point, as `Construct` and `ActivateNewScale` derive
`visible_rect` from the window size and the scale factor. -/
def rectAround (c : Point) (w h s : Int) : Rect :=
  let width := w * s
  let height := h * s
  ⟨c.x - width / 2, c.y - height / 2,
   c.x - width / 2 + width, c.y - height / 2 + height⟩

/-- Modelled from the spec: `automap_new` (declared in `am_map.h`, body not in
the sources). Rejects a non-positive window size or scale with
`InvalidGeometry`; otherwise centers the view on the player, derives
`visible_rect` sized to the window at the given scale, starts non-rotated,
with an empty pan accumulator and no saved rectangle. -/
def automap_new (player_position_x player_position_y window_width window_height
    scale_frame_buffer_to_map : Int) : Except AutomapError Automap :=
  if 0 < window_width ∧ 0 < window_height ∧ 0 < scale_frame_buffer_to_map then
    .ok
      { center := ⟨player_position_x, player_position_y⟩
        visible_rect := rectAround ⟨player_position_x, player_position_y⟩
          window_width window_height scale_frame_buffer_to_map
        rotate := false
        window_size := ⟨window_width, window_height⟩
        scale_frame_buffer_to_map := scale_frame_buffer_to_map
        pan_accumulator := ⟨0, 0⟩
        saved_rect := none }
  else
    .error .invalidGeometry

/-- Modelled from the spec: `automap_change_window_location` (declared in
`am_map.h`, body not in the sources). Validates `max_x > min_x` and
`max_y > min_y`; on failure reports `InvalidRectangle` and leaves the state
untouched, on success replaces `visible_rect`, moves `center` to the
rectangle's midpoint and stores the rotation flag. The state is returned
together with the optional error, mirroring the in-place mutation of the C
interface. -/
def automap_change_window_location (a : Automap) (rotate : Bool)
    (min_x min_y max_x max_y : Int) : Automap × Option AutomapError :=
  if min_x < max_x ∧ min_y < max_y then
    ({ a with
        visible_rect := ⟨min_x, min_y, max_x, max_y⟩
        center := Rect.mid ⟨min_x, min_y, max_x, max_y⟩
        rotate := rotate }, none)
  else
    (a, some .invalidRectangle)

/-- Modelled from the spec: `automap_activate_new_scale` (declared in
`am_map.h`, body not in the sources). Rejects a non-positive window size or
scale with `InvalidGeometry`; otherwise stores the new window size and scale
and resizes `visible_rect` around the unchanged `center` so that the displayed
extent is `window_size * scale` on each axis. -/
def automap_activate_new_scale (a : Automap) (window_width window_height
    scale_frame_buffer_to_map : Int) : Automap × Option AutomapError :=
  if 0 < window_width ∧ 0 < window_height ∧ 0 < scale_frame_buffer_to_map then
    ({ a with
        window_size := ⟨window_width, window_height⟩
        scale_frame_buffer_to_map := scale_frame_buffer_to_map
        visible_rect := rectAround a.center window_width window_height
          scale_frame_buffer_to_map }, none)
  else
    (a, some .invalidGeometry)

/-- Modelled from the spec: `automap_update_panning` (declared in `am_map.h`,
body not in the sources). Sums the keyboard and mouse pairs into
`pan_accumulator`, applies the entire accumulated offset to both corners of
`visible_rect` and to `center`, then resets `pan_accumulator` to zero. The
spec leaves the rotated-frame delta convention open (its §9); the deltas are
taken here as world-space offsets, which is the specified behaviour whenever
`rotate` is false. -/
def automap_update_panning (a : Automap) (pan_increase_keyboard_x
    pan_increase_keyboard_y pan_increase_mouse_x pan_increase_mouse_y : Int) :
    Automap :=
  let dx := a.pan_accumulator.x + pan_increase_keyboard_x + pan_increase_mouse_x
  let dy := a.pan_accumulator.y + pan_increase_keyboard_y + pan_increase_mouse_y
  { a with
      visible_rect := a.visible_rect.translate dx dy
      center := ⟨a.center.x + dx, a.center.y + dy⟩
      pan_accumulator := ⟨0, 0⟩ }

/-- Modelled from the spec: `automap_save_rect` (declared in `am_map.h`, body
not in the sources). Snapshots the current `visible_rect` and `center`,
overwriting any prior snapshot. -/
def automap_save_rect (a : Automap) : Automap :=
  { a with saved_rect := some (a.visible_rect, a.center) }

/-- Modelled from the spec: the recentering step shared by `RestoreRect` and
`FollowPlayer`: translate `visible_rect` and `center` so that `center` lands
exactly on the supplied player position, preserving width and height. -/
def recenterOn (a : Automap) (player_position_x player_position_y : Int) :
    Automap :=
  let dx := player_position_x - a.center.x
  let dy := player_position_y - a.center.y
  { a with
      visible_rect := a.visible_rect.translate dx dy
      center := ⟨player_position_x, player_position_y⟩ }

/-- Modelled from the spec: `automap_restore_rect` (declared in `am_map.h`,
body not in the sources). When a snapshot is held it restores `visible_rect`
and `center` from it and clears the slot; either way it then recenters the
view on the supplied player position. -/
def automap_restore_rect (a : Automap)
    (player_position_x player_position_y : Int) : Automap :=
  let a' :=
    match a.saved_rect with
    | some (r, c) => { a with visible_rect := r, center := c, saved_rect := none }
    | none => a
  recenterOn a' player_position_x player_position_y

/-- Modelled from the spec: `automap_follow_player` (declared in `am_map.h`,
body not in the sources). Translates `visible_rect`, preserving width and
height, so that `center` equals the player position; `pan_accumulator` and
`saved_rect` are untouched. -/
def automap_follow_player (a : Automap)
    (player_position_x player_position_y : Int) : Automap :=
  recenterOn a player_position_x player_position_y

/-- Modelled from the spec: `automap_get_rect` (declared in `am_map.h`, body
not in the sources). Pure query returning
`(min_x, min_y, max_x - min_x, max_y - min_y)`. -/
def automap_get_rect (a : Automap) : Int × Int × Int × Int :=
  (a.visible_rect.min_x, a.visible_rect.min_y,
   a.visible_rect.width, a.visible_rect.height)

/-- Strictly positive width and height: `max_x > min_x` and `max_y > min_y`. -/
def ValidRect (r : Rect) : Prop := r.min_x < r.max_x ∧ r.min_y < r.max_y

instance (r : Rect) : Decidable (ValidRect r) := by
  unfold ValidRect; infer_instance

/-- Internal invariant of the controller: the pan accumulator is fully applied
(zero) between calls, the visible rectangle has strictly positive extent, the
stored center is the rectangle's midpoint, and any held snapshot satisfies the
same rectangle properties. -/
def Inv (a : Automap) : Prop :=
  a.pan_accumulator = ⟨0, 0⟩ ∧
  ValidRect a.visible_rect ∧
  a.center = a.visible_rect.mid ∧
  ∀ rc ∈ a.saved_rect, ValidRect rc.1 ∧ rc.2 = rc.1.mid

/-- States reachable through the public interface: a successful construction
followed by any sequence of the controller's operations. -/
inductive Reachable : Automap → Prop where
  | new (px py w h s : Int) (a : Automap) :
      automap_new px py w h s = .ok a → Reachable a
  | change_window_location (a : Automap) (r : Bool) (x1 y1 x2 y2 : Int) :
      Reachable a → Reachable (automap_change_window_location a r x1 y1 x2 y2).1
  | activate_new_scale (a : Automap) (w h s : Int) :
      Reachable a → Reachable (automap_activate_new_scale a w h s).1
  | update_panning (a : Automap) (kx ky mx my : Int) :
      Reachable a → Reachable (automap_update_panning a kx ky mx my)
  | save_rect (a : Automap) :
      Reachable a → Reachable (automap_save_rect a)
  | restore_rect (a : Automap) (px py : Int) :
      Reachable a → Reachable (automap_restore_rect a px py)
  | follow_player (a : Automap) (px py : Int) :
      Reachable a → Reachable (automap_follow_player a px py)

theorem Rect.translate_width (r : Rect) (dx dy : Int) :
    (r.translate dx dy).width = r.width := by
  simp [Rect.translate, Rect.width]

theorem Rect.translate_height (r : Rect) (dx dy : Int) :
    (r.translate dx dy).height = r.height := by
  simp [Rect.translate, Rect.height]

theorem Rect.translate_mid (r : Rect) (dx dy : Int) :
    (r.translate dx dy).mid = ⟨r.mid.x + dx, r.mid.y + dy⟩ := by
  simp only [Rect.translate, Rect.mid, Point.ext_iff]
  constructor <;> omega

theorem Rect.translate_valid (r : Rect) (dx dy : Int) (h : ValidRect r) :
    ValidRect (r.translate dx dy) := by
  simp only [ValidRect, Rect.translate] at *
  omega

theorem rectAround_mid (c : Point) (w h s : Int) : (rectAround c w h s).mid = c := by
  simp only [rectAround, Rect.mid, Point.ext_iff]
  constructor <;> omega

theorem rectAround_width (c : Point) (w h s : Int) :
    (rectAround c w h s).width = w * s := by
  simp [rectAround, Rect.width]

theorem rectAround_height (c : Point) (w h s : Int) :
    (rectAround c w h s).height = h * s := by
  simp [rectAround, Rect.height]

theorem rectAround_valid (c : Point) (w h s : Int) (hw : 0 < w * s)
    (hh : 0 < h * s) : ValidRect (rectAround c w h s) := by
  simp only [ValidRect, rectAround]
  constructor <;> omega

theorem automap_new_inv (px py w h s : Int) (a : Automap)
    (hnew : automap_new px py w h s = .ok a) : Inv a := by
  unfold automap_new at hnew
  split at hnew
  case isTrue hpos =>
    obtain ⟨hw, hh, hs⟩ := hpos
    cases hnew
    refine ⟨rfl, rectAround_valid _ _ _ _ (mul_pos hw hs) (mul_pos hh hs),
      (rectAround_mid _ _ _ _).symm, ?_⟩
    intro rc hrc
    simp at hrc
  case isFalse => cases hnew

theorem automap_change_window_location_inv (a : Automap) (r : Bool)
    (x1 y1 x2 y2 : Int) (hinv : Inv a) :
    Inv (automap_change_window_location a r x1 y1 x2 y2).1 := by
  obtain ⟨hpan, hvalid, hmid, hsaved⟩ := hinv
  unfold automap_change_window_location
  split
  case isTrue hlt => exact ⟨hpan, hlt, rfl, hsaved⟩
  case isFalse => exact ⟨hpan, hvalid, hmid, hsaved⟩

theorem automap_activate_new_scale_inv (a : Automap) (w h s : Int)
    (hinv : Inv a) : Inv (automap_activate_new_scale a w h s).1 := by
  obtain ⟨hpan, hvalid, hmid, hsaved⟩ := hinv
  unfold automap_activate_new_scale
  split
  case isTrue hpos =>
    obtain ⟨hw, hh, hs⟩ := hpos
    exact ⟨hpan, rectAround_valid _ _ _ _ (mul_pos hw hs) (mul_pos hh hs),
      (rectAround_mid _ _ _ _).symm, hsaved⟩
  case isFalse => exact ⟨hpan, hvalid, hmid, hsaved⟩

theorem automap_update_panning_inv (a : Automap) (kx ky mx my : Int)
    (hinv : Inv a) : Inv (automap_update_panning a kx ky mx my) := by
  obtain ⟨hpan, hvalid, hmid, hsaved⟩ := hinv
  unfold automap_update_panning
  refine ⟨rfl, Rect.translate_valid _ _ _ hvalid, ?_, hsaved⟩
  rw [Rect.translate_mid, hmid]

theorem automap_save_rect_inv (a : Automap) (hinv : Inv a) :
    Inv (automap_save_rect a) := by
  obtain ⟨hpan, hvalid, hmid, hsaved⟩ := hinv
  refine ⟨hpan, hvalid, hmid, ?_⟩
  intro rc hrc
  simp [automap_save_rect] at hrc
  subst hrc
  exact ⟨hvalid, hmid⟩

theorem recenterOn_inv (a : Automap) (px py : Int) (hinv : Inv a) :
    Inv (recenterOn a px py) := by
  obtain ⟨hpan, hvalid, hmid, hsaved⟩ := hinv
  refine ⟨hpan, Rect.translate_valid _ _ _ hvalid, ?_, hsaved⟩
  rw [recenterOn]
  simp only [Rect.translate_mid, ← hmid, Point.ext_iff]
  constructor <;> omega

theorem automap_restore_rect_inv (a : Automap) (px py : Int) (hinv : Inv a) :
    Inv (automap_restore_rect a px py) := by
  unfold automap_restore_rect
  cases hrc : a.saved_rect with
  | none =>
    simp only [hrc]
    exact recenterOn_inv _ _ _ hinv
  | some rc =>
    simp only [hrc]
    obtain ⟨hpan, _, _, hsaved⟩ := hinv
    obtain ⟨hvalid', hmid'⟩ := hsaved rc (by simp [hrc])
    apply recenterOn_inv
    refine ⟨hpan, hvalid', hmid', ?_⟩
    intro rc' hrc'
    simp at hrc'

theorem automap_follow_player_inv (a : Automap) (px py : Int) (hinv : Inv a) :
    Inv (automap_follow_player a px py) :=
  recenterOn_inv a px py hinv

theorem reachable_inv (a : Automap) (h : Reachable a) : Inv a := by
  induction h with
  | new px py w h s a hnew => exact automap_new_inv px py w h s a hnew
  | change_window_location a r x1 y1 x2 y2 _ ih =>
    exact automap_change_window_location_inv a r x1 y1 x2 y2 ih
  | activate_new_scale a w h s _ ih =>
    exact automap_activate_new_scale_inv a w h s ih
  | update_panning a kx ky mx my _ ih =>
    exact automap_update_panning_inv a kx ky mx my ih
  | save_rect a _ ih => exact automap_save_rect_inv a ih
  | restore_rect a px py _ ih => exact automap_restore_rect_inv a px py ih
  | follow_player a px py _ ih => exact automap_follow_player_inv a px py ih

/-- Sample state: the result of constructing with player `(1000, 2000)`,
window `320x200` and scale `16`. -/
def automap0 : Automap :=
  { center := ⟨1000, 2000⟩
    visible_rect := ⟨-1560, 400, 3560, 3600⟩
    rotate := false
    window_size := ⟨320, 200⟩
    scale_frame_buffer_to_map := 16
    pan_accumulator := ⟨0, 0⟩
    saved_rect := none }

theorem automap0_new : automap_new 1000 2000 320 200 16 = .ok automap0 := by
  rfl

theorem automap0_reachable : Reachable automap0 :=
  .new 1000 2000 320 200 16 automap0 automap0_new

/-- One intermediate call of the save/restore scenario: either an explicit
rectangle change or a panning update. -/
inductive MidOp where
  | change (rotate : Bool) (min_x min_y max_x max_y : Int)
  | panning (kx ky mx my : Int)

/-- Applies one intermediate call to a state (a failed rectangle change keeps
the state, as the C interface does). -/
def applyMidOp (a : Automap) (op : MidOp) : Automap :=
  match op with
  | .change r x1 y1 x2 y2 => (automap_change_window_location a r x1 y1 x2 y2).1
  | .panning kx ky mx my => automap_update_panning a kx ky mx my

/-- Applies a sequence of intermediate calls from left to right. -/
def applyMidOps (a : Automap) (ops : List MidOp) : Automap :=
  ops.foldl applyMidOp a

theorem applyMidOp_saved_rect (a : Automap) (op : MidOp) :
    (applyMidOp a op).saved_rect = a.saved_rect := by
  cases op with
  | change r x1 y1 x2 y2 =>
    simp only [applyMidOp, automap_change_window_location]
    split <;> rfl
  | panning kx ky mx my => rfl

theorem applyMidOps_saved_rect (a : Automap) (ops : List MidOp) :
    (applyMidOps a ops).saved_rect = a.saved_rect := by
  induction ops generalizing a with
  | nil => rfl
  | cons op ops ih =>
    rw [applyMidOps, List.foldl_cons, ← applyMidOps, ih, applyMidOp_saved_rect]

/-- Claim C1: for every state, `ChangeWindowLocation` with a rectangle
violating `max_x > min_x` or `max_y > min_y` fails with `InvalidRectangle`
and leaves the state unchanged, so `GetRect` afterwards returns exactly what
it returned before the call. -/
theorem change_window_location_invalid_rejected (a : Automap) (r : Bool)
    (x1 y1 x2 y2 : Int) (hbad : x2 ≤ x1 ∨ y2 ≤ y1) :
    (automap_change_window_location a r x1 y1 x2 y2).2
        = some AutomapError.invalidRectangle ∧
    automap_get_rect (automap_change_window_location a r x1 y1 x2 y2).1
        = automap_get_rect a := by
  unfold automap_change_window_location
  rw [if_neg (by omega)]
  exact ⟨rfl, rfl⟩

/-- Witness for claim C1 at the sample state with the degenerate rectangle
`(0, 0, 0, 5)`. -/
theorem change_window_location_invalid_rejected_witness :
    ((0 : Int) ≤ 0 ∨ (5 : Int) ≤ 0) ∧
    ((automap_change_window_location automap0 true 0 0 0 5).2
        = some AutomapError.invalidRectangle ∧
     automap_get_rect (automap_change_window_location automap0 true 0 0 0 5).1
        = automap_get_rect automap0) :=
  ⟨Or.inl (by decide),
   change_window_location_invalid_rejected automap0 true 0 0 0 5
     (Or.inl (by decide))⟩

/-- Claim C2: for every construction with positive window width, height and
scale, `GetRect` immediately after `Construct` reports a rectangle centered
on the supplied player position with width `w * s` and height `h * s`, both
strictly positive. -/
theorem new_get_rect_centered (px py w h s : Int) (a : Automap)
    (hw : 0 < w) (hh : 0 < h) (hs : 0 < s)
    (hnew : automap_new px py w h s = .ok a) :
    a.visible_rect.mid = ⟨px, py⟩ ∧
    automap_get_rect a
      = (a.visible_rect.min_x, a.visible_rect.min_y, w * s, h * s) ∧
    0 < w * s ∧ 0 < h * s := by
  unfold automap_new at hnew
  rw [if_pos ⟨hw, hh, hs⟩] at hnew
  cases hnew
  refine ⟨rectAround_mid _ _ _ _, ?_, mul_pos hw hs, mul_pos hh hs⟩
  simp [automap_get_rect, rectAround_width, rectAround_height]

/-- Witness for claim C2: player `(1000, 2000)`, window `320x200`, scale `16`
gives a rectangle centered at `(1000, 2000)` of width `5120` and height
`3200`. -/
theorem new_get_rect_centered_witness :
    automap_new 1000 2000 320 200 16 = .ok automap0 ∧
    ((0 : Int) < 320 ∧ (0 : Int) < 200 ∧ (0 : Int) < 16) ∧
    (automap0.visible_rect.mid = ⟨1000, 2000⟩ ∧
     automap_get_rect automap0
       = (automap0.visible_rect.min_x, automap0.visible_rect.min_y,
          320 * 16, 200 * 16) ∧
     (0 : Int) < 320 * 16 ∧ (0 : Int) < 200 * 16) ∧
    automap_get_rect automap0 = (-1560, 400, 5120, 3200) :=
  ⟨automap0_new, by decide,
   new_get_rect_centered 1000 2000 320 200 16 automap0
     (by decide) (by decide) (by decide) automap0_new,
   by decide⟩

/-- Claim C3: in every reachable state with `rotate = false`,
`UpdatePanning(dx1, dy1, dx2, dy2)` shifts both corners of the visible
rectangle by exactly `(dx1 + dx2, dy1 + dy2)` and leaves width and height
unchanged, as observed by `GetRect`. -/
theorem update_panning_shifts (a : Automap) (dx1 dy1 dx2 dy2 : Int)
    (hr : Reachable a) ( _hrot : a.rotate = false) :
    (automap_update_panning a dx1 dy1 dx2 dy2).visible_rect.min_x
        = a.visible_rect.min_x + (dx1 + dx2) ∧
    (automap_update_panning a dx1 dy1 dx2 dy2).visible_rect.min_y
        = a.visible_rect.min_y + (dy1 + dy2) ∧
    (automap_update_panning a dx1 dy1 dx2 dy2).visible_rect.max_x
        = a.visible_rect.max_x + (dx1 + dx2) ∧
    (automap_update_panning a dx1 dy1 dx2 dy2).visible_rect.max_y
        = a.visible_rect.max_y + (dy1 + dy2) ∧
    automap_get_rect (automap_update_panning a dx1 dy1 dx2 dy2)
        = (a.visible_rect.min_x + (dx1 + dx2),
           a.visible_rect.min_y + (dy1 + dy2),
           a.visible_rect.width, a.visible_rect.height) := by
  have hpan := (reachable_inv a hr).1
  simp only [automap_update_panning, automap_get_rect, Rect.translate,
    Rect.width, Rect.height, hpan]
  refine ⟨by omega, by omega, by omega, by omega, ?_⟩
  simp only [Prod.mk.injEq]
  refine ⟨by omega, by omega, by omega, by omega⟩

/-- Witness for claim C3 at the sample state with deltas `(3, 4, 5, 6)`. -/
theorem update_panning_shifts_witness :
    Reachable automap0 ∧ automap0.rotate = false ∧
    ((automap_update_panning automap0 3 4 5 6).visible_rect.min_x
        = automap0.visible_rect.min_x + (3 + 5) ∧
     (automap_update_panning automap0 3 4 5 6).visible_rect.min_y
        = automap0.visible_rect.min_y + (4 + 6) ∧
     (automap_update_panning automap0 3 4 5 6).visible_rect.max_x
        = automap0.visible_rect.max_x + (3 + 5) ∧
     (automap_update_panning automap0 3 4 5 6).visible_rect.max_y
        = automap0.visible_rect.max_y + (4 + 6) ∧
     automap_get_rect (automap_update_panning automap0 3 4 5 6)
        = (automap0.visible_rect.min_x + (3 + 5),
           automap0.visible_rect.min_y + (4 + 6),
           automap0.visible_rect.width, automap0.visible_rect.height)) :=
  ⟨automap0_reachable, rfl,
   update_panning_shifts automap0 3 4 5 6 automap0_reachable rfl⟩

/-- Claim C4: in every reachable state, `SaveRect`, then any sequence of
`ChangeWindowLocation` and `UpdatePanning` calls, then `RestoreRect(px, py)`
yields a visible rectangle with the pre-save width and height, centered
exactly on `(px, py)`, and the snapshot is cleared. -/
theorem save_restore_round_trip (a : Automap) (ops : List MidOp)
    (px py : Int) (hr : Reachable a) :
    (automap_restore_rect (applyMidOps (automap_save_rect a) ops) px py).visible_rect.width
        = a.visible_rect.width ∧
    (automap_restore_rect (applyMidOps (automap_save_rect a) ops) px py).visible_rect.height
        = a.visible_rect.height ∧
    (automap_restore_rect (applyMidOps (automap_save_rect a) ops) px py).center
        = ⟨px, py⟩ ∧
    (automap_restore_rect (applyMidOps (automap_save_rect a) ops) px py).visible_rect.mid
        = ⟨px, py⟩ ∧
    (automap_restore_rect (applyMidOps (automap_save_rect a) ops) px py).saved_rect
        = none := by
  have hmid := (reachable_inv a hr).2.2.1
  have hsaved : (applyMidOps (automap_save_rect a) ops).saved_rect
      = some (a.visible_rect, a.center) := by
    rw [applyMidOps_saved_rect]; rfl
  unfold automap_restore_rect
  rw [hsaved]
  simp only [recenterOn]
  refine ⟨Rect.translate_width _ _ _, Rect.translate_height _ _ _, trivial,
    ?_, trivial⟩
  rw [Rect.translate_mid, ← hmid]
  ext <;> simp

/-- Witness for claim C4 at the sample state, with one rectangle change and
one panning call between the save and the restore. -/
theorem save_restore_round_trip_witness :
    Reachable automap0 ∧
    ((automap_restore_rect (applyMidOps (automap_save_rect automap0)
        [MidOp.change true 0 0 10 10, MidOp.panning 1 2 3 4]) 7 8).visible_rect.width
        = automap0.visible_rect.width ∧
     (automap_restore_rect (applyMidOps (automap_save_rect automap0)
        [MidOp.change true 0 0 10 10, MidOp.panning 1 2 3 4]) 7 8).visible_rect.height
        = automap0.visible_rect.height ∧
     (automap_restore_rect (applyMidOps (automap_save_rect automap0)
        [MidOp.change true 0 0 10 10, MidOp.panning 1 2 3 4]) 7 8).center
        = ⟨7, 8⟩ ∧
     (automap_restore_rect (applyMidOps (automap_save_rect automap0)
        [MidOp.change true 0 0 10 10, MidOp.panning 1 2 3 4]) 7 8).visible_rect.mid
        = ⟨7, 8⟩ ∧
     (automap_restore_rect (applyMidOps (automap_save_rect automap0)
        [MidOp.change true 0 0 10 10, MidOp.panning 1 2 3 4]) 7 8).saved_rect
        = none) :=
  ⟨automap0_reachable,
   save_restore_round_trip automap0
     [MidOp.change true 0 0 10 10, MidOp.panning 1 2 3 4] 7 8
     automap0_reachable⟩

/-- Claim C5: `ActivateNewScale` is idempotent: for every state and every
positive window size and scale, applying it twice with identical arguments
yields the same visible rectangle as applying it once. -/
theorem activate_new_scale_idempotent (a : Automap) (w h s : Int)
    (hw : 0 < w) (hh : 0 < h) (hs : 0 < s) :
    (automap_activate_new_scale
        (automap_activate_new_scale a w h s).1 w h s).1.visible_rect
      = (automap_activate_new_scale a w h s).1.visible_rect := by
  simp only [automap_activate_new_scale,
    if_pos (show 0 < w ∧ 0 < h ∧ 0 < s from ⟨hw, hh, hs⟩)]

/-- Witness for claim C5 at the sample state with window `100x50` and scale
`2`. -/
theorem activate_new_scale_idempotent_witness :
    ((0 : Int) < 100 ∧ (0 : Int) < 50 ∧ (0 : Int) < 2) ∧
    (automap_activate_new_scale
        (automap_activate_new_scale automap0 100 50 2).1 100 50 2).1.visible_rect
      = (automap_activate_new_scale automap0 100 50 2).1.visible_rect :=
  ⟨by decide,
   activate_new_scale_idempotent automap0 100 50 2
     (by decide) (by decide) (by decide)⟩

/-- Claim C6: for every state and every positive window size and scale,
`ActivateNewScale` leaves `center` unchanged and recomputes the visible
rectangle around that unchanged center, with width `w * s` and height
`h * s`. -/
theorem activate_new_scale_preserves_center (a : Automap) (w h s : Int)
    (hw : 0 < w) (hh : 0 < h) (hs : 0 < s) :
    (automap_activate_new_scale a w h s).1.center = a.center ∧
    (automap_activate_new_scale a w h s).1.visible_rect.mid = a.center ∧
    (automap_activate_new_scale a w h s).1.visible_rect.width = w * s ∧
    (automap_activate_new_scale a w h s).1.visible_rect.height = h * s := by
  simp only [automap_activate_new_scale,
    if_pos (show 0 < w ∧ 0 < h ∧ 0 < s from ⟨hw, hh, hs⟩)]
  exact ⟨trivial, rectAround_mid _ _ _ _, rectAround_width _ _ _ _,
    rectAround_height _ _ _ _⟩

/-- Witness for claim C6 at the sample state with window `100x50` and scale
`2`. -/
theorem activate_new_scale_preserves_center_witness :
    ((0 : Int) < 100 ∧ (0 : Int) < 50 ∧ (0 : Int) < 2) ∧
    ((automap_activate_new_scale automap0 100 50 2).1.center
        = automap0.center ∧
     (automap_activate_new_scale automap0 100 50 2).1.visible_rect.mid
        = automap0.center ∧
     (automap_activate_new_scale automap0 100 50 2).1.visible_rect.width
        = 100 * 2 ∧
     (automap_activate_new_scale automap0 100 50 2).1.visible_rect.height
        = 50 * 2) :=
  ⟨by decide,
   activate_new_scale_preserves_center automap0 100 50 2
     (by decide) (by decide) (by decide)⟩

/-- Claim C7: in every reachable state the visible rectangle has
`max_x > min_x` and `max_y > min_y`, so width and height are strictly
positive; the invariant holds after construction and is preserved by every
operation of the controller. -/
theorem visible_rect_valid_of_reachable (a : Automap) (hr : Reachable a) :
    a.visible_rect.min_x < a.visible_rect.max_x ∧
    a.visible_rect.min_y < a.visible_rect.max_y :=
  (reachable_inv a hr).2.1

/-- Witness for claim C7 at the sample constructed state. -/
theorem visible_rect_valid_of_reachable_witness :
    Reachable automap0 ∧
    (automap0.visible_rect.min_x < automap0.visible_rect.max_x ∧
     automap0.visible_rect.min_y < automap0.visible_rect.max_y) :=
  ⟨automap0_reachable, visible_rect_valid_of_reachable automap0 automap0_reachable⟩

/-- Claim C8: in every reachable state holding no snapshot,
`RestoreRect(px, py)` leaves the visible rectangle's width and height
unchanged and recenters it so that its center equals `(px, py)`. -/
theorem restore_rect_no_snapshot (a : Automap) (px py : Int)
    (hr : Reachable a) (hnone : a.saved_rect = none) :
    (automap_restore_rect a px py).visible_rect.width
        = a.visible_rect.width ∧
    (automap_restore_rect a px py).visible_rect.height
        = a.visible_rect.height ∧
    (automap_restore_rect a px py).center = ⟨px, py⟩ ∧
    (automap_restore_rect a px py).visible_rect.mid = ⟨px, py⟩ := by
  have hmid := (reachable_inv a hr).2.2.1
  unfold automap_restore_rect
  rw [hnone]
  simp only [recenterOn]
  refine ⟨Rect.translate_width _ _ _, Rect.translate_height _ _ _, trivial, ?_⟩
  rw [Rect.translate_mid, ← hmid]
  ext <;> simp

/-- Witness for claim C8 at the sample state (which holds no snapshot),
restoring to player position `(7, 8)`. -/
theorem restore_rect_no_snapshot_witness :
    Reachable automap0 ∧ automap0.saved_rect = none ∧
    ((automap_restore_rect automap0 7 8).visible_rect.width
        = automap0.visible_rect.width ∧
     (automap_restore_rect automap0 7 8).visible_rect.height
        = automap0.visible_rect.height ∧
     (automap_restore_rect automap0 7 8).center = ⟨7, 8⟩ ∧
     (automap_restore_rect automap0 7 8).visible_rect.mid = ⟨7, 8⟩) :=
  ⟨automap0_reachable, rfl,
   restore_rect_no_snapshot automap0 7 8 automap0_reachable rfl⟩

/-- Claim C9: `FollowPlayer(px, py)` translates the visible rectangle
preserving width and height so that `center = (px, py)`, leaves
`pan_accumulator` and `saved_rect` unchanged, and repeating the call with the
same arguments after the first one leaves the state identical. -/
theorem follow_player_recenters_idempotent (a : Automap) (px py : Int) :
    (automap_follow_player a px py).visible_rect.width
        = a.visible_rect.width ∧
    (automap_follow_player a px py).visible_rect.height
        = a.visible_rect.height ∧
    (automap_follow_player a px py).center = ⟨px, py⟩ ∧
    (automap_follow_player a px py).pan_accumulator = a.pan_accumulator ∧
    (automap_follow_player a px py).saved_rect = a.saved_rect ∧
    automap_follow_player (automap_follow_player a px py) px py
        = automap_follow_player a px py := by
  unfold automap_follow_player recenterOn
  refine ⟨Rect.translate_width _ _ _, Rect.translate_height _ _ _, rfl, rfl,
    rfl, ?_⟩
  simp [Rect.translate]

/-- Claim C10: `FollowPlayer` satisfies absorption: following to `p` and then
to `q` gives the same visible rectangle and center as following to `q`
directly, so successive follow calls never accumulate drift. -/
theorem follow_player_absorption (a : Automap) (px py qx qy : Int) :
    (automap_follow_player (automap_follow_player a px py) qx qy).visible_rect
        = (automap_follow_player a qx qy).visible_rect ∧
    (automap_follow_player (automap_follow_player a px py) qx qy).center
        = (automap_follow_player a qx qy).center := by
  unfold automap_follow_player recenterOn
  refine ⟨?_, rfl⟩
  ext <;> simp [Rect.translate] <;> omega

end AmMap
